import Mathlib

/-!
Shallow embedding of `src/backend/services/ai.service.js`.

Conventions of the embedding:
* JS strings are `String`; JS string operations are modelled character-wise
  over `String.data` (ASCII subset of the Unicode classes used by the code).
* JS numbers are modelled as exact rationals `ℚ` where fractional weights
  occur (`calculateConfidence`, vector-similarity scores) and as `ℤ` for the
  confidence values that the service stores and compares against the integer
  thresholds 80 and 85 (the data model declares confidence an integer 0-100).
  IEEE-754 rounding error of the JS runtime is below every threshold and
  rounding boundary exercised here, so the rational model agrees with the
  float semantics on all observable outputs of these functions.
* `null`/`undefined` function arguments are `Option _`; JS truthiness of a
  string is "not empty".
* External collaborators (the embedding HTTP service, the Neo4j store, the
  Groq HTTP endpoint, `JSON.parse`) are passed in explicitly: either as a
  function argument describing their behaviour for the one request being
  modelled, or as an explicit store state that the Cypher statements
  transform.  A thrown JS error is an `Except.error` / a `none`.
-/

set_option maxRecDepth 8000

/-- JS `Math.round`: round half toward positive infinity. -/
def jsRound (q : ℚ) : ℤ := ⌊q + 1/2⌋

/-- The backtick character (U+0060), written via `Char.ofNat`. -/
def backtickChar : Char := Char.ofNat 96

/-- Line terminators excluded by `.` in a JS regex (ASCII ones). -/
def isLineTerm (c : Char) : Bool := c == '\n' || c == '\r'

/-- Characters matched by `\s` in a JS regex (ASCII ones). -/
def isWsChar (c : Char) : Bool :=
  c == ' ' || c == '\t' || c == '\n' || c == '\r' || c == '\x0b' || c == '\x0c'

/-- JS `String.prototype.toLowerCase` (ASCII model): lowercase every char. -/
def jsToLowerCase (s : String) : String := String.mk (s.data.map Char.toLower)

/-- JS `String.prototype.trim`: strip leading and trailing whitespace. -/
def jsTrim (s : String) : String :=
  String.mk (((s.data.dropWhile isWsChar).reverse.dropWhile isWsChar).reverse)

/-- Boolean prefix test on character lists. -/
def isPrefixOfChars : List Char → List Char → Bool
  | [], _ => true
  | _ :: _, [] => false
  | a :: as, b :: bs => a == b && isPrefixOfChars as bs

/-- JS `String.prototype.startsWith`. -/
def jsStartsWith (s pre : String) : Bool := isPrefixOfChars pre.data s.data

/-- Helper for `jsReplaceFirst`: remove the first occurrence of `pat`. -/
def replaceFirstAux (pat : List Char) : List Char → List Char
  | [] => []
  | c :: cs =>
      if isPrefixOfChars pat (c :: cs) then (c :: cs).drop pat.length
      else c :: replaceFirstAux pat cs

/-- JS `String.prototype.replace` with a string pattern and empty
replacement: deletes the first occurrence of the pattern, if any. -/
def jsReplaceFirst (s pat : String) : String := String.mk (replaceFirstAux pat.data s.data)

/-- Cypher `split(s, ' ')` / JS `s.split(' ')`: split on single spaces. -/
def splitOnSpaceAux (cur : List Char) : List Char → List (List Char)
  | [] => [cur.reverse]
  | c :: cs => if c == ' ' then cur.reverse :: splitOnSpaceAux [] cs
               else splitOnSpaceAux (c :: cur) cs

/-- Split a string on single spaces (the only splitting the service does). -/
def jsSplitOnSpace (s : String) : List String := (splitOnSpaceAux [] s.data).map String.mk

/-- Match `#` exactly `n` times at the head of the list. -/
def hashRun : ℕ → List Char → Bool
  | 0, _ => true
  | _ + 1, [] => false
  | n + 1, c :: cs => c == '#' && hashRun n cs

/-- Consume `n` leading `#` characters, or fail. -/
def dropHashes (n : ℕ) (l : List Char) : Option (List Char) :=
  if hashRun n l then some (l.drop n) else none

/-- Match the regex fragment `\s+.+` at the head of the list (greedy with
backtracking, as a JS engine does) and return the remainder after the
match.  `\s` may consume line terminators; `.` may not. -/
def matchWsDot (cs : List Char) : Option (List Char) :=
  match cs.dropWhile isWsChar with
  | c :: rest =>
      if (cs.takeWhile isWsChar).isEmpty || isLineTerm c then none
      else some (rest.dropWhile (fun ch => !(isLineTerm ch)))
  | [] =>
      if 2 ≤ (((cs.takeWhile isWsChar).reverse).dropWhile isLineTerm).length then
        some ((((cs.takeWhile isWsChar).reverse).takeWhile isLineTerm).reverse)
      else none

/-- Test for the regex `#{n}\s+.+` anywhere in the text (JS `.test`). -/
def testHeading (n : ℕ) : List Char → Bool
  | [] => false
  | c :: cs =>
      ((dropHashes n (c :: cs)).bind matchWsDot).isSome || testHeading n cs

/-- Supporting fact for termination: `dropHashes` never lengthens the list. -/
theorem dropHashes_length_le {n : ℕ} {l r : List Char} (h : dropHashes n l = some r) :
    r.length ≤ l.length := by
  rw [dropHashes] at h
  split at h
  · have hr := Option.some.inj h
    rw [← hr, List.length_drop]
    omega
  · exact absurd h (by simp)

/-- Supporting fact for termination: a `\s+.+` match consumes characters. -/
theorem matchWsDot_length_lt {cs r : List Char} (h : matchWsDot cs = some r) :
    r.length < cs.length := by
  rw [matchWsDot] at h
  split at h
  next c rest heq =>
    split at h
    · exact absurd h (by simp)
    · have hr := Option.some.inj h
      have h1 : (rest.dropWhile (fun ch => !(isLineTerm ch))).length ≤ rest.length :=
        (List.dropWhile_sublist _).length_le
      have h2 : (c :: rest).length ≤ cs.length := by
        rw [← heq]; exact (List.dropWhile_sublist _).length_le
      simp only [List.length_cons] at h2
      rw [← hr]
      omega
  next heq =>
    split at h
    next hcond =>
      have hr := Option.some.inj h
      have happ := congrArg List.length
        (List.takeWhile_append_dropWhile isLineTerm ((cs.takeWhile isWsChar).reverse))
      rw [List.length_append] at happ
      have htw : (cs.takeWhile isWsChar).length ≤ cs.length :=
        (List.takeWhile_sublist _).length_le
      rw [← hr]
      simp only [List.length_reverse] at happ ⊢
      omega
    · exact absurd h (by simp)

/-- Count the non-overlapping matches of `#{n}\s+.+` (JS `.match(...).length`
with the global flag: leftmost match, then continue after its end). -/
def countHeads (n : ℕ) (cs : List Char) : ℕ :=
  match cs with
  | [] => 0
  | c :: cs' =>
      match h : (dropHashes n (c :: cs')).bind matchWsDot with
      | some rest => 1 + countHeads n rest
      | none => countHeads n cs'
  termination_by cs.length
  decreasing_by
    · rw [Option.bind_eq_some] at h
      obtain ⟨mid, hm, hw⟩ := h
      have h1 := dropHashes_length_le hm
      have h2 := matchWsDot_length_lt hw
      simp only [List.length_cons] at h1 ⊢
      omega
    · simp only [List.length_cons]
      omega

/-- Line-start scan for JS multiline `^`: apply `p` at the start of the text
and right after every line terminator. -/
def afterLineStartsAux (p : List Char → Bool) : List Char → Bool
  | [] => false
  | c :: cs => (isLineTerm c && p cs) || afterLineStartsAux p cs

/-- Test `p` at every position that multiline `^` can match. -/
def anyLineStart (p : List Char → Bool) (cs : List Char) : Bool :=
  p cs || afterLineStartsAux p cs

/-- Match the regex `^[\s]*[-*]\s+.+` at one line start. -/
def bulletAtLineStart (cs : List Char) : Bool :=
  match cs.dropWhile isWsChar with
  | c :: rest => (c == '-' || c == '*') && (matchWsDot rest).isSome
  | [] => false

/-- Match the regex `^\d+\.\s+.+` at one line start. -/
def numberedAtLineStart (cs : List Char) : Bool :=
  match cs.dropWhile (fun c => c.isDigit) with
  | c :: rest =>
      !(cs.takeWhile (fun c => c.isDigit)).isEmpty && c == '.' && (matchWsDot rest).isSome
  | [] => false

/-- Two stars at the head of the list. -/
def twoStarsAt : List Char → Bool
  | a :: b :: _ => a == '*' && b == '*'
  | _ => false

/-- After an opening `**`: one or more non-line-terminator characters
followed by a closing `**` (the lazy body of `\*\*.+?\*\*`). -/
def boldBody : List Char → Bool
  | [] => false
  | c :: cs => !(isLineTerm c) && (twoStarsAt cs || boldBody cs)

/-- Test for the regex `\*\*.+?\*\*` anywhere in the text. -/
def testBold : List Char → Bool
  | a :: b :: rest => (a == '*' && b == '*' && boldBody rest) || testBold (b :: rest)
  | _ => false

/-- Three backticks at the head of the list. -/
def threeTicksAt : List Char → Bool
  | a :: b :: c :: _ => a == backtickChar && b == backtickChar && c == backtickChar
  | _ => false

/-- Whether a triple backtick occurs anywhere in the list. -/
def containsThreeTicks : List Char → Bool
  | [] => false
  | c :: cs => threeTicksAt (c :: cs) || containsThreeTicks cs

/-- Test for the regex `(three backticks)[\s\S]*?(three backticks)`. -/
def testCodeBlocks : List Char → Bool
  | a :: b :: c :: rest =>
      (a == backtickChar && b == backtickChar && c == backtickChar && containsThreeTicks rest)
      || testCodeBlocks (b :: c :: rest)
  | _ => false

/-- Lazy delimited body: one or more non-line-terminator characters followed
by the closing character (used for inline code and bracket formulas). -/
def delimBody (close : Char) : List Char → Bool
  | [] => false
  | c :: cs => !(isLineTerm c) && (cs.head? == some close || delimBody close cs)

/-- Test for an `open .+? close` single-character-delimited regex anywhere. -/
def testDelim (opn close : Char) : List Char → Bool
  | [] => false
  | c :: cs => (c == opn && delimBody close cs) || testDelim opn close cs

/-- Detail flags of `checkFormattingQuality`.  The source returns the empty
object `{}` for missing text, so every field is optional; an absent field is
`none`. -/
structure FormattingDetails where
  hasMainTitle : Option Bool := none
  hasSubtitles : Option Bool := none
  hasBulletPoints : Option Bool := none
  hasNumberedLists : Option Bool := none
  hasBoldText : Option Bool := none
  hasCodeBlocks : Option Bool := none
  hasInlineCode : Option Bool := none
  hasFormulas : Option Bool := none
  titleCount : Option ℕ := none
  subtitleCount : Option ℕ := none
deriving DecidableEq, Repr

/-- Return value of `checkFormattingQuality`. -/
structure FormattingResult where
  score : ℕ
  details : FormattingDetails
deriving DecidableEq, Repr

/-- Embedding of `checkFormattingQuality` (ai.service.js lines 15-54).
`text` is `none` for a null/undefined argument; the falsy branch also
covers the empty string. -/
def checkFormattingQuality (text : Option String) : FormattingResult :=
  match text with
  | none => { score := 0, details := {} }
  | some s =>
    if s = "" then { score := 0, details := {} }
    else
      let cs := s.data
      let hasMainTitle := testHeading 3 cs
      let hasSubtitles := testHeading 4 cs
      let hasBulletPoints := anyLineStart bulletAtLineStart cs
      let hasNumberedLists := anyLineStart numberedAtLineStart cs
      let hasBoldText := testBold cs
      let hasCodeBlocks := testCodeBlocks cs
      let hasInlineCode := testDelim backtickChar backtickChar cs
      let hasFormulas := testDelim '[' ']' cs
      let titleCount := countHeads 3 cs
      let subtitleCount := countHeads 4 cs
      { score :=
          (if hasMainTitle then 15 else 0) +
          (if hasSubtitles then 15 else 0) +
          (if hasBulletPoints then 10 else 0) +
          (if hasNumberedLists then 10 else 0) +
          (if hasBoldText then 10 else 0) +
          (if hasCodeBlocks then 5 else 0) +
          (if hasInlineCode then 5 else 0) +
          (if hasFormulas then 5 else 0) +
          (if 1 ≤ titleCount then 5 else 0) +
          (if 2 ≤ subtitleCount then 10 else 0),
        details :=
          { hasMainTitle := some hasMainTitle
            hasSubtitles := some hasSubtitles
            hasBulletPoints := some hasBulletPoints
            hasNumberedLists := some hasNumberedLists
            hasBoldText := some hasBoldText
            hasCodeBlocks := some hasCodeBlocks
            hasInlineCode := some hasInlineCode
            hasFormulas := some hasFormulas
            titleCount := some titleCount
            subtitleCount := some subtitleCount } }

/-- Parameter object of `calculateConfidence` (defaults from the JS
destructuring).  `formattingScore` stands for `hasFormatting.score`;
`isVisionMode` and `contentType` are received but never used, exactly as in
the source. -/
structure ConfidenceParams where
  aiConfidence : ℚ := 85
  hasContext : Bool := false
  hasSelectedText : Bool := false
  hasVisualContext : Bool := false
  isVisionMode : Bool := false
  responseLength : ℕ := 0
  formattingScore : ℚ := 0
  contentType : Option String := some "text"
  isVerifiedSource : Bool := false

/-- Clamp a rational to the interval [0, 100] (JS `Math.min(100, Math.max(0, x))`). -/
def clamp0100 (x : ℚ) : ℚ := min 100 (max 0 x)

/-- AI weight: 0.50 for a verified source, 0.35 otherwise (line 74). -/
def aiWeightOf (p : ConfidenceParams) : ℚ := if p.isVerifiedSource then 50/100 else 35/100

/-- AI component: clamped model confidence times the weight (line 75). -/
def aiScoreOf (p : ConfidenceParams) : ℚ := clamp0100 p.aiConfidence * aiWeightOf p

/-- Context component, capped at 25 (lines 78-82). -/
def contextScoreOf (p : ConfidenceParams) : ℚ :=
  min 25 ((if p.hasSelectedText then 12 else 0) + (if p.hasContext then 8 else 0) +
    (if p.hasVisualContext then 5 else 0))

/-- Response-length component (lines 85-89). -/
def responseScoreOf (p : ConfidenceParams) : ℚ :=
  if 400 ≤ p.responseLength then 20
  else if 200 ≤ p.responseLength then 15
  else if 100 ≤ p.responseLength then 10
  else 5

/-- Formatting component: formatting score rescaled to 20 (line 92). -/
def formattingScoreOf (p : ConfidenceParams) : ℚ := p.formattingScore / 100 * 20

/-- Verified-source bonus (line 95). -/
def sourceBonusOf (p : ConfidenceParams) : ℚ := if p.isVerifiedSource then 10 else 0

/-- The unclamped rounded total of line 98 (the JS variable `finalScore`). -/
def rawFinalOf (p : ConfidenceParams) : ℤ :=
  jsRound (aiScoreOf p + contextScoreOf p + responseScoreOf p + formattingScoreOf p +
    sourceBonusOf p)

/-- JS template string for the AI weight: "50%" or "35%". -/
def aiWeightLabelOf (p : ConfidenceParams) : String :=
  if p.isVerifiedSource then "50%" else "35%"

/-- Reliability label (lines 122-124), computed from the unclamped total. -/
def reliabilityOf (finalScore : ℤ) : String :=
  if 85 ≤ finalScore then "High"
  else if 70 ≤ finalScore then "Good"
  else if 50 ≤ finalScore then "Moderate"
  else "Low"

/-- Breakdown entry of `calculateConfidence`: a weight label and a rounded
contribution. -/
structure BreakdownEntry where
  weight : String
  contribution : ℤ
deriving DecidableEq, Repr

/-- Breakdown entry for the AI component, which also reports the rounded
back-computed input value. -/
structure AiBreakdownEntry where
  value : ℤ
  weight : String
  contribution : ℤ
deriving DecidableEq, Repr

/-- Summary entry of the breakdown. -/
structure BreakdownSummary where
  totalScore : ℤ
  reliability : String
deriving DecidableEq, Repr

/-- The breakdown object of `calculateConfidence` (lines 102-126).  Its
fields are exactly the five keys the source constructs: there is no entry
for the verified-source bonus. -/
structure Breakdown where
  aiConfidence : AiBreakdownEntry
  contextQuality : BreakdownEntry
  responseQuality : BreakdownEntry
  formattingQuality : BreakdownEntry
  summary : BreakdownSummary
deriving DecidableEq, Repr

/-- Return value of `calculateConfidence`. -/
structure ConfidenceResult where
  finalScore : ℤ
  breakdown : Breakdown
deriving DecidableEq, Repr

/-- Embedding of `calculateConfidence` (ai.service.js lines 60-128). -/
def calculateConfidence (p : ConfidenceParams) : ConfidenceResult :=
  { finalScore := min 100 (max 0 (rawFinalOf p)),
    breakdown :=
      { aiConfidence :=
          { value := jsRound (aiScoreOf p / aiWeightOf p)
            weight := aiWeightLabelOf p
            contribution := jsRound (aiScoreOf p) }
        contextQuality := { weight := "25%", contribution := jsRound (contextScoreOf p) }
        responseQuality := { weight := "20%", contribution := jsRound (responseScoreOf p) }
        formattingQuality := { weight := "20%", contribution := jsRound (formattingScoreOf p) }
        summary :=
          { totalScore := min 100 (max 0 (rawFinalOf p))
            reliability := reliabilityOf (rawFinalOf p) } } }

/-- The lookup key computed by `searchExistingDoubts` (line 180):
lowercased trimmed query, then a pipe plus lowercased trimmed context when
the context string is truthy. -/
def searchKeyOf (query context : String) : String :=
  jsTrim (jsToLowerCase query) ++
    (if context = "" then "" else "|" ++ jsTrim (jsToLowerCase context))

/-- The upsert key computed by `saveDoubtToGraph` (line 471), written out
independently so that its agreement with `searchKeyOf` is a statement and
not a definitional accident. -/
def saveQueryKeyOf (query context : String) : String :=
  jsTrim (jsToLowerCase query) ++
    (if context = "" then "" else "|" ++ jsTrim (jsToLowerCase context))

/-- A stored `Doubt` node.  `relatedContent` records the targets of its
outgoing `RELATES_TO` edges to `Content` nodes.  Confidence is the integer
0-100 value written by the service. -/
structure Doubt where
  queryKey : String
  query : String := ""
  context : String := ""
  answer : String := ""
  confidence : ℤ := 0
  relatedContent : List String := []
deriving DecidableEq, Repr

/-- The content-scoped Cypher query of `searchExistingDoubts` (lines
184-190): a Doubt with the exact key, a RELATES_TO edge to the given
content, and confidence at least 80; Neo4j returns the first such row. -/
def contentScopedLookup (store : List Doubt) (contentId key : String) : Option Doubt :=
  store.find? (fun d => d.queryKey == key && d.relatedContent.contains contentId &&
    decide (80 ≤ d.confidence))

/-- The global Cypher query of `searchExistingDoubts` (lines 202-209). -/
def globalLookup (store : List Doubt) (key : String) : Option Doubt :=
  store.find? (fun d => d.queryKey == key && decide (80 ≤ d.confidence))

/-- Result rows returned to the caller of `searchExistingDoubts`. -/
structure DoubtHit where
  answer : String
  confidence : ℤ
  source : String
deriving DecidableEq, Repr

/-- Embedding of `searchExistingDoubts` (ai.service.js lines 178-223).
`storeFails` models `runNeo4jQuery` throwing; the catch block degrades to
`null`.  `contentId` is truthy only when present and non-empty. -/
def searchExistingDoubts (storeFails : Bool) (store : List Doubt) (query : String)
    (context : String) (contentId : Option String) : Option DoubtHit :=
  if storeFails then none
  else
    let searchKey := searchKeyOf query context
    let contentHit : Option DoubtHit :=
      match contentId with
      | some cid =>
          if cid = "" then none
          else (contentScopedLookup store cid searchKey).map
            (fun d => { answer := d.answer, confidence := d.confidence,
                        source := "content_knowledge_base" })
      | none => none
    match contentHit with
    | some h => some h
    | none =>
        (globalLookup store searchKey).map
          (fun d => { answer := d.answer, confidence := d.confidence, source := "graph_db" })

/-- SET clause of the Doubt MERGE (lines 474-475 plus the conditional
FOREACH edge merge): update the mutable fields, keep the key. -/
def applyDoubtSet (d : Doubt) (q ctx a : String) (conf : ℤ) (link : Option String) : Doubt :=
  { d with query := q, context := ctx, answer := a, confidence := conf,
           relatedContent :=
             match link with
             | some c => if c ∈ d.relatedContent then d.relatedContent
                         else d.relatedContent ++ [c]
             | none => d.relatedContent }

/-- MERGE on `queryKey`: update the first Doubt with the key, else create
one (Neo4j MERGE keeps the key unique). -/
def upsertDoubt (key q ctx a : String) (conf : ℤ) (link : Option String) :
    List Doubt → List Doubt
  | [] => [applyDoubtSet { queryKey := key } q ctx a conf link]
  | d :: ds =>
      if d.queryKey = key then applyDoubtSet d q ctx a conf link :: ds
      else d :: upsertDoubt key q ctx a conf link ds

/-- Embedding of `saveDoubtToGraph` (ai.service.js lines 469-486).
`contents` is the set of existing `Content` node ids (the OPTIONAL MATCH
target); a store failure leaves the store unchanged (the catch only logs). -/
def saveDoubtToGraph (storeFails : Bool) (contents : List String) (store : List Doubt)
    (query answer : String) (confidence : ℤ) (context : String)
    (contentId : Option String) : List Doubt :=
  if storeFails then store
  else
    let queryKey := saveQueryKeyOf query context
    let link := contentId.bind (fun c => if c ∈ contents then some c else none)
    upsertDoubt queryKey (jsTrim query) (jsTrim context) answer confidence link store

/-- An embedding vector returned by the embedding service. -/
abbrev Emb := List ℚ

/-- One candidate row produced by the external vector index for
`db.index.vector.queryNodes('doubt_vector_index', 5, $embedding)`:
a Question node's text, the Answer reached over its `ANSWERS` edge when
that edge exists, and the similarity score. -/
structure IndexRow where
  questionText : String
  answerText : Option String
  score : ℚ
deriving DecidableEq, Repr

/-- Cypher post-processing of the index rows (lines 151-158): keep rows
with score at least 0.80 that have an `ANSWERS` edge.  The index already
returns at most its top five rows. -/
def vectorRowsFilter (rows : List IndexRow) : List (String × String × ℚ) :=
  rows.filterMap (fun r =>
    if (80/100 : ℚ) ≤ r.score then r.answerText.map (fun a => (r.questionText, a, r.score))
    else none)

/-- ORDER BY score DESC LIMIT 1: keep the first row with the maximal score. -/
def pickTopRowAux (best : String × String × ℚ) :
    List (String × String × ℚ) → String × String × ℚ
  | [] => best
  | r :: rs => if best.2.2 < r.2.2 then pickTopRowAux r rs else pickTopRowAux best rs

/-- First row with the maximal score, if any. -/
def pickTopRow : List (String × String × ℚ) → Option (String × String × ℚ)
  | [] => none
  | r :: rs => some (pickTopRowAux r rs)

/-- Return value of `searchKnowledgeGraph`. -/
inductive KGSearchResult
  | found (question answer : String) (confidence : ℚ)
  | noMatch
deriving DecidableEq, Repr

/-- Embedding of `searchKnowledgeGraph` (ai.service.js lines 144-176).
`embedSvc` models `getEmbedding` (null on failure), `vectorIndex` the
external vector index, `storeFails` a thrown `runNeo4jQuery`.  The JS
function binds `courseId` into the query parameters, but the Cypher text
never references `$courseId`, so the rows depend only on the embedding and
the index contents. -/
def searchKnowledgeGraph (embedSvc : String → Option Emb)
    (vectorIndex : Emb → List IndexRow) (storeFails : Bool)
    (query : String) (courseId : Option String) : KGSearchResult :=
  match embedSvc query with
  | none => .noMatch
  | some embedding =>
      let _params := (embedding, courseId)
      if storeFails then .noMatch
      else
        match pickTopRow (vectorRowsFilter (vectorIndex embedding)) with
        | some r => .found r.1 r.2.1 (r.2.2 * 100)
        | none => .noMatch

/-- A durable Question node (text identity, embedding and timestamp set on
merge). -/
structure QuestionNode where
  text : String
  embedding : Emb := []
  timestamp : ℕ := 0
deriving DecidableEq, Repr

/-- A durable Answer node. -/
structure AnswerNode where
  text : String
  confidence : ℤ := 0
  source : String := ""
  timestamp : ℕ := 0
deriving DecidableEq, Repr

/-- The durable knowledge graph touched by `saveToKnowledgeGraph`.  Edge
lists hold (source key, target key) pairs; `courses` and `contents` are the
ids of the externally owned Course and Content nodes. -/
structure KGraph where
  questions : List QuestionNode := []
  answers : List AnswerNode := []
  answersEdges : List (String × String) := []
  questionCourseEdges : List (String × String) := []
  resourceEdges : List (String × String) := []
  concepts : List String := []
  questionConceptEdges : List (String × String) := []
  conceptCourseEdges : List (String × String) := []
  courses : List String := []
  contents : List String := []
deriving DecidableEq, Repr

/-- Cypher MERGE of an edge: add the pair unless it is already present. -/
def insertPair (l : List (String × String)) (x : String × String) : List (String × String) :=
  if x ∈ l then l else l ++ [x]

/-- MERGE (q:Question {text}) SET q.embedding, q.timestamp (lines 242-243). -/
def mergeQuestion (g : KGraph) (t : String) (e : Emb) (now : ℕ) : KGraph :=
  { g with questions :=
      if g.questions.any (fun q => q.text == t) then
        g.questions.map (fun q =>
          if q.text == t then { q with embedding := e, timestamp := now } else q)
      else g.questions ++ [{ text := t, embedding := e, timestamp := now }] }

/-- MERGE (a:Answer {text}) SET confidence, source, timestamp (lines 245-246). -/
def mergeAnswer (g : KGraph) (t : String) (conf : ℤ) (now : ℕ) : KGraph :=
  { g with answers :=
      if g.answers.any (fun a => a.text == t) then
        g.answers.map (fun a =>
          if a.text == t then
            { a with confidence := conf, source := "AI_GENERATED", timestamp := now }
          else a)
      else g.answers ++ [{ text := t, confidence := conf, source := "AI_GENERATED",
                           timestamp := now }] }

/-- Cypher `apoc.text.capitalize`: uppercase the first character. -/
def capitalizeWord (w : String) : String :=
  match w.data with
  | [] => ""
  | c :: cs => String.mk (c.toUpper :: cs)

/-- One UNWIND row of the concept section (lines 261-265): merge the
Concept node and its two edges. -/
def mergeConcept (g : KGraph) (q courseId name : String) : KGraph :=
  { g with concepts := if name ∈ g.concepts then g.concepts else g.concepts ++ [name],
           questionConceptEdges := insertPair g.questionConceptEdges (q, name),
           conceptCourseEdges := insertPair g.conceptCourseEdges (name, courseId) }

/-- The UNWIND over `split($query, ' ')` filtered to words longer than five
characters (lines 261-262). -/
def conceptWordsOf (query : String) : List String :=
  (jsSplitOnSpace query).filter (fun w => 5 < w.length)

/-- Concept section of the merge statement. -/
def mergeConcepts (g : KGraph) (query courseId : String) : KGraph :=
  (conceptWordsOf query).foldl (fun acc w => mergeConcept acc query courseId (capitalizeWord w)) g

/-- The full Cypher statement of `saveToKnowledgeGraph` (lines 241-268)
with Neo4j row semantics: the two inner MATCH clauses drop all rows when
the Course (resp. Content) id does not exist, which stops the rest of the
statement while keeping the merges already performed. -/
def mergeSubgraph (g : KGraph) (query answer : String) (conf : ℤ) (e : Emb)
    (courseId contentId : String) (now : ℕ) : KGraph :=
  let g1 := mergeQuestion g query e now
  let g2 := mergeAnswer g1 answer conf now
  let g3 := { g2 with answersEdges := insertPair g2.answersEdges (query, answer) }
  if courseId ∈ g3.courses then
    let g4 := { g3 with questionCourseEdges := insertPair g3.questionCourseEdges (query, courseId) }
    if contentId ∈ g4.contents then
      let g5 := { g4 with resourceEdges := insertPair g4.resourceEdges (query, contentId) }
      mergeConcepts g5 query courseId
    else g4
  else g3

/-- JS value returned by `saveToKnowledgeGraph`: `null`, `true` or `false`. -/
inductive JsVal
  | null
  | bool (b : Bool)
deriving DecidableEq, Repr

/-- Parameter object of `saveToKnowledgeGraph`.  `context` and
`selectedText` are bound into the query parameters but unused by the
Cypher text, exactly as in the source. -/
structure SaveParams where
  query : String
  answer : String
  confidence : ℤ
  courseId : String
  contentId : Option String := none
  context : Option String := none
  selectedText : Option String := none

/-- Observable outcome of one `saveToKnowledgeGraph` call: the returned JS
value, the store state afterwards, and whether the embedding service and
the store were contacted at all. -/
structure SaveOutcome where
  result : JsVal
  graph : KGraph
  embeddingCalled : Bool
  storeCalled : Bool

/-- JS `contentId || ''`. -/
def jsOrEmpty (o : Option String) : String := (o.getD "")

/-- Embedding of `saveToKnowledgeGraph` (ai.service.js lines 231-287).
The guard `if (confidence < 85) return null` runs before any external
interaction; a null embedding returns null; a store failure returns false;
otherwise the merge statement runs and the function returns true. -/
def saveToKnowledgeGraph (embedSvc : String → Option Emb) (storeFails : Bool)
    (g : KGraph) (now : ℕ) (p : SaveParams) : SaveOutcome :=
  if p.confidence < 85 then
    { result := .null, graph := g, embeddingCalled := false, storeCalled := false }
  else
    match embedSvc p.query with
    | none => { result := .null, graph := g, embeddingCalled := true, storeCalled := false }
    | some embedding =>
        if storeFails then
          { result := .bool false, graph := g, embeddingCalled := true, storeCalled := true }
        else
          { result := .bool true,
            graph := mergeSubgraph g p.query p.answer p.confidence embedding p.courseId
              (jsOrEmpty p.contentId) now,
            embeddingCalled := true, storeCalled := true }

/-- Grounding data parsed from a strict-region context (line 339); the
default object has every field empty. -/
structure Grounding where
  transcriptSegment : String := ""
  selectedTimestamp : String := ""
  courseContext : String := ""
  facultyResources : String := ""
deriving DecidableEq, Repr

/-- The strict-region sentinel tested by line 330. -/
def strictRegionSentinel : String := "STRICT_REGION_CONTEXT:"

/-- The prompt mode `askGroq` constructs: region-grounded with its parsed
grounding data, or the adaptive general prompt. -/
inductive PromptMode
  | regionGrounded (gc : Grounding)
  | adaptive
deriving DecidableEq, Repr

/-- Embedding of the prompt-mode selection of `askGroq` (lines 330-340).
`jsonParse` models the runtime `JSON.parse` followed by field extraction:
`none` when parsing throws (malformed JSON); the catch block keeps the
default object, so selection never raises.  Note the source strips the
sentinel with a trailing space even though the prefix test has none. -/
def selectPromptMode (jsonParse : String → Option Grounding) (context : String) : PromptMode :=
  if jsStartsWith context strictRegionSentinel then
    let rawGrounding := jsReplaceFirst context "STRICT_REGION_CONTEXT: "
    match jsonParse rawGrounding with
    | some gc => .regionGrounded gc
    | none => .regionGrounded {}
  else .adaptive

/-- Behaviour of the Groq HTTP endpoint for the one modelled request:
a successful completion with the returned message text, an HTTP error
status (`err.response.status`), or a transport error with no response. -/
inductive ProviderOutcome
  | ok (content : String)
  | httpStatus (status : ℕ)
  | networkError (message : String)
deriving DecidableEq, Repr

/-- Environment of one `askGroq` call: the process-level key (empty string
when `GROQ_API_KEY` is unset) and the provider behaviour. -/
structure AskEnv where
  envApiKey : String := ""
  provider : ProviderOutcome
deriving DecidableEq, Repr

/-- Arguments of `askGroq` in source order; `userKey` is the empty string
for a null caller key, `visualContext` is the truthiness of the visual
context object. -/
structure AskArgs where
  query : String
  context : String := ""
  visualContext : Bool := false
  contentUrl : Option String := none
  contentType : Option String := none
  language : String := "english"
  userName : String := "Student"
  selectedText : String := ""
  userKey : String := ""

/-- The distinct failure conditions `askGroq` detects before its outer
catch block rewrites them (lines 296, 434, 437, 439). -/
inductive AskFailure
  | noApiKey
  | apiLimitReached
  | invalidApiKey
  | upstream (message : String)
deriving DecidableEq, Repr

/-- The message of the JS Error thrown for each inner failure. -/
def askFailureMessage : AskFailure → String
  | .noApiKey => "NO_API_KEY"
  | .apiLimitReached => "API_LIMIT_REACHED"
  | .invalidApiKey => "INVALID_API_KEY"
  | .upstream m => m

/-- Successful return value of `askGroq` (lines 457-462). -/
structure AskSuccess where
  explanation : String
  confidence : ℤ
  confidenceBreakdown : Breakdown
  source : String

/-- JS `userKey || GROQ_API_KEY` (line 293). -/
def activeApiKeyOf (userKey envApiKey : String) : String :=
  if userKey = "" then envApiKey else userKey

/-- Vision mode flag (lines 299-302): visual context, a content URL and
content type "image" must all be present. -/
def isVisionModeOf (a : AskArgs) : Bool :=
  a.visualContext && (match a.contentUrl with | some u => u != "" | none => false) &&
    (a.contentType == some "image")

/-- Body of `askGroq` up to (but not including) the outer catch block
(lines 290-462): the missing-key check, the provider call with its status
mapping (lines 432-440), and on success the formatting analysis and
confidence scoring of the returned text (lines 442-461). -/
def innerAskGroq (env : AskEnv) (a : AskArgs) : Except AskFailure AskSuccess :=
  if activeApiKeyOf a.userKey env.envApiKey = "" then .error .noApiKey
  else
    match env.provider with
    | .httpStatus s =>
        if s = 413 || s = 429 then .error .apiLimitReached
        else if s = 401 then .error .invalidApiKey
        else .error (.upstream ("HTTP_" ++ toString s))
    | .networkError m => .error (.upstream m)
    | .ok content =>
        let confidenceResult := calculateConfidence
          { aiConfidence := 85
            hasContext := a.context != ""
            hasSelectedText := a.selectedText != ""
            hasVisualContext := a.visualContext
            isVisionMode := isVisionModeOf a
            responseLength := content.length
            formattingScore := ((checkFormattingQuality (some content)).score : ℚ)
            contentType := a.contentType
            isVerifiedSource := false }
        .ok { explanation := content
              confidence := confidenceResult.finalScore
              confidenceBreakdown := confidenceResult.breakdown
              source := if isVisionModeOf a then "groq_vision" else "groq_llama" }

/-- The single error message every failure is rewritten to (line 465). -/
def tutorUnavailableMessage : String := "AI Tutor is currently unavailable."

/-- Embedding of `askGroq` (ai.service.js lines 289-467): the whole body
runs inside one try block whose catch rethrows every failure as the one
generic error. -/
def askGroq (env : AskEnv) (a : AskArgs) : Except String AskSuccess :=
  match innerAskGroq env a with
  | .ok r => .ok r
  | .error _ => .error tutorUnavailableMessage

/-- Lookup after upsert: the merged Doubt is found by the global query
whenever its confidence clears the retrieval threshold. -/
theorem globalLookup_upsertDoubt (store : List Doubt) (key q ctx a : String) (conf : ℤ)
    (link : Option String) (h : 80 ≤ conf) :
    ∃ d, globalLookup (upsertDoubt key q ctx a conf link store) key = some d ∧
      d.answer = a ∧ d.confidence = conf := by
  induction store with
  | nil =>
      refine ⟨applyDoubtSet { queryKey := key } q ctx a conf link, ?_, rfl, rfl⟩
      rw [upsertDoubt, globalLookup]
      apply List.find?_cons_of_pos
      simp [applyDoubtSet, h]
  | cons d ds ih =>
      by_cases hk : d.queryKey = key
      · refine ⟨applyDoubtSet d q ctx a conf link, ?_, rfl, rfl⟩
        rw [upsertDoubt, if_pos hk, globalLookup]
        apply List.find?_cons_of_pos
        simp [applyDoubtSet, hk, h]
      · obtain ⟨d', hfind, ha, hc⟩ := ih
        refine ⟨d', ?_, ha, hc⟩
        rw [upsertDoubt, if_neg hk, globalLookup]
        rw [List.find?_cons_of_neg _ (by simp [hk])]
        exact hfind

/-- The merged pair is a member after `insertPair`. -/
theorem mem_insertPair_self (l : List (String × String)) (x : String × String) :
    x ∈ insertPair l x := by
  rw [insertPair]
  split
  · assumption
  · simp

/-- Existing pairs survive `insertPair`. -/
theorem mem_insertPair_of_mem (l : List (String × String)) (x y : String × String)
    (h : y ∈ l) : y ∈ insertPair l x := by
  rw [insertPair]
  split
  · exact h
  · simp [h]

/-- After `mergeQuestion` a Question node with the merged text, embedding
and timestamp is present. -/
theorem mergeQuestion_mem (g : KGraph) (t : String) (e : Emb) (now : ℕ) :
    ∃ qn ∈ (mergeQuestion g t e now).questions,
      qn.text = t ∧ qn.embedding = e ∧ qn.timestamp = now := by
  rw [mergeQuestion]
  dsimp only
  split
  next hany =>
    rw [List.any_eq_true] at hany
    obtain ⟨q, hq, hqt⟩ := hany
    refine ⟨{ q with embedding := e, timestamp := now }, ?_, ?_, rfl, rfl⟩
    · exact List.mem_map.mpr ⟨q, hq, by rw [if_pos hqt]⟩
    · exact beq_iff_eq.mp hqt
  next =>
    exact ⟨{ text := t, embedding := e, timestamp := now }, by simp, rfl, rfl, rfl⟩

/-- After `mergeAnswer` an Answer node with the merged text, confidence and
source tag is present. -/
theorem mergeAnswer_mem (g : KGraph) (t : String) (conf : ℤ) (now : ℕ) :
    ∃ an ∈ (mergeAnswer g t conf now).answers,
      an.text = t ∧ an.confidence = conf ∧ an.source = "AI_GENERATED" := by
  rw [mergeAnswer]
  dsimp only
  split
  next hany =>
    rw [List.any_eq_true] at hany
    obtain ⟨x, hx, hxt⟩ := hany
    refine ⟨{ x with confidence := conf, source := "AI_GENERATED", timestamp := now },
      ?_, ?_, rfl, rfl⟩
    · exact List.mem_map.mpr ⟨x, hx, by rw [if_pos hxt]⟩
    · exact beq_iff_eq.mp hxt
  next =>
    exact ⟨{ text := t, confidence := conf, source := "AI_GENERATED", timestamp := now },
      by simp, rfl, rfl, rfl⟩

/-- The merged Concept name is present after `mergeConcept`. -/
theorem mergeConcept_mem_self (g : KGraph) (q cid n : String) :
    n ∈ (mergeConcept g q cid n).concepts := by
  rw [mergeConcept]
  dsimp only
  split
  · assumption
  · simp

/-- Existing Concept names survive `mergeConcept`. -/
theorem mergeConcept_mem_mono (g : KGraph) (q cid n x : String)
    (h : x ∈ g.concepts) : x ∈ (mergeConcept g q cid n).concepts := by
  rw [mergeConcept]
  dsimp only
  split
  · exact h
  · simp [h]

/-- Concept-fold preservation: the concept section of the statement leaves
every other part of the graph unchanged. -/
theorem foldConcepts_fields (ws : List String) (q cid : String) : ∀ g : KGraph,
    ((ws.foldl (fun acc w => mergeConcept acc q cid (capitalizeWord w)) g).questions
        = g.questions) ∧
    ((ws.foldl (fun acc w => mergeConcept acc q cid (capitalizeWord w)) g).answers
        = g.answers) ∧
    ((ws.foldl (fun acc w => mergeConcept acc q cid (capitalizeWord w)) g).answersEdges
        = g.answersEdges) ∧
    ((ws.foldl (fun acc w => mergeConcept acc q cid (capitalizeWord w)) g).questionCourseEdges
        = g.questionCourseEdges) ∧
    ((ws.foldl (fun acc w => mergeConcept acc q cid (capitalizeWord w)) g).resourceEdges
        = g.resourceEdges) := by
  induction ws with
  | nil => intro g; exact ⟨rfl, rfl, rfl, rfl, rfl⟩
  | cons w ws ih =>
      intro g
      have h' := ih (mergeConcept g q cid (capitalizeWord w))
      simp only [List.foldl_cons]
      exact ⟨h'.1.trans rfl, h'.2.1.trans rfl, h'.2.2.1.trans rfl, h'.2.2.2.1.trans rfl,
        h'.2.2.2.2.trans rfl⟩

/-- Concept names survive the concept fold. -/
theorem foldConcepts_mem_mono (ws : List String) (q cid x : String) : ∀ g : KGraph,
    x ∈ g.concepts →
    x ∈ (ws.foldl (fun acc w => mergeConcept acc q cid (capitalizeWord w)) g).concepts := by
  induction ws with
  | nil => intro g h; exact h
  | cons w ws ih =>
      intro g h
      simp only [List.foldl_cons]
      exact ih _ (mergeConcept_mem_mono _ _ _ _ _ h)

/-- Every word of the fold produces its capitalized Concept node. -/
theorem foldConcepts_mem (ws : List String) (q cid : String) (w : String) (hw : w ∈ ws) :
    ∀ g : KGraph,
    capitalizeWord w ∈ (ws.foldl (fun acc u => mergeConcept acc q cid (capitalizeWord u)) g).concepts := by
  induction ws with
  | nil => cases hw
  | cons v ws ih =>
      intro g
      simp only [List.foldl_cons]
      rcases List.mem_cons.mp hw with hv | hv
      · subst hv
        exact foldConcepts_mem_mono ws q cid _ _ (mergeConcept_mem_self _ _ _ _)
      · exact ih hv _

/-- The merge statement's Question list is exactly the one produced by the
Question MERGE. -/
theorem mergeSubgraph_questions_eq (g : KGraph) (q a : String) (conf : ℤ) (e : Emb)
    (cid ctid : String) (now : ℕ) :
    (mergeSubgraph g q a conf e cid ctid now).questions = (mergeQuestion g q e now).questions := by
  rw [mergeSubgraph]
  dsimp only
  split
  · split
    · rw [mergeConcepts]
      exact ((foldConcepts_fields _ _ _ _).1).trans rfl
    · rfl
  · rfl

/-- The merge statement's Answer list is exactly the one produced by the
Answer MERGE. -/
theorem mergeSubgraph_answers_eq (g : KGraph) (q a : String) (conf : ℤ) (e : Emb)
    (cid ctid : String) (now : ℕ) :
    (mergeSubgraph g q a conf e cid ctid now).answers =
      (mergeAnswer (mergeQuestion g q e now) a conf now).answers := by
  rw [mergeSubgraph]
  dsimp only
  split
  · split
    · rw [mergeConcepts]
      exact ((foldConcepts_fields _ _ _ _).2.1).trans rfl
    · rfl
  · rfl

/-- The ANSWERS edge merge is preserved to the end of the statement. -/
theorem mergeSubgraph_answersEdges_eq (g : KGraph) (q a : String) (conf : ℤ) (e : Emb)
    (cid ctid : String) (now : ℕ) :
    (mergeSubgraph g q a conf e cid ctid now).answersEdges =
      insertPair g.answersEdges (q, a) := by
  rw [mergeSubgraph]
  dsimp only
  split
  · split
    · rw [mergeConcepts]
      exact ((foldConcepts_fields _ _ _ _).2.2.1).trans rfl
    · rfl
  · rfl

/-- When the Course id exists, the statement merges the course RELATES_TO
edge and keeps it. -/
theorem mergeSubgraph_courseEdges_eq (g : KGraph) (q a : String) (conf : ℤ) (e : Emb)
    (cid ctid : String) (now : ℕ) (hc : cid ∈ g.courses) :
    (mergeSubgraph g q a conf e cid ctid now).questionCourseEdges =
      insertPair g.questionCourseEdges (q, cid) := by
  rw [mergeSubgraph]
  dsimp only
  split
  · split
    · rw [mergeConcepts]
      exact ((foldConcepts_fields _ _ _ _).2.2.2.1).trans rfl
    · rfl
  next hcc => exact absurd hc hcc

/-- When both the Course and the Content exist, the statement merges the
GENERATED_FROM_RESOURCE edge. -/
theorem mergeSubgraph_resourceEdges_eq (g : KGraph) (q a : String) (conf : ℤ) (e : Emb)
    (cid ctid : String) (now : ℕ) (hc : cid ∈ g.courses) (hr : ctid ∈ g.contents) :
    (mergeSubgraph g q a conf e cid ctid now).resourceEdges =
      insertPair g.resourceEdges (q, ctid) := by
  rw [mergeSubgraph]
  dsimp only
  split
  · split
    · rw [mergeConcepts]
      exact ((foldConcepts_fields _ _ _ _).2.2.2.2).trans rfl
    next hrr => exact absurd hr hrr
  next hcc => exact absurd hc hcc

/-- When both the Course and the Content exist, every long word of the
query yields its capitalized Concept node. -/
theorem mergeSubgraph_concepts_mem (g : KGraph) (q a : String) (conf : ℤ) (e : Emb)
    (cid ctid : String) (now : ℕ) (hc : cid ∈ g.courses) (hr : ctid ∈ g.contents)
    (w : String) (hw : w ∈ jsSplitOnSpace q) (hlen : 5 < w.length) :
    capitalizeWord w ∈ (mergeSubgraph g q a conf e cid ctid now).concepts := by
  rw [mergeSubgraph]
  dsimp only
  split
  · split
    · rw [mergeConcepts]
      apply foldConcepts_mem
      rw [conceptWordsOf, List.mem_filter]
      exact ⟨hw, by simpa using hlen⟩
    next hrr => exact absurd hr hrr
  next hcc => exact absurd hc hcc

/-- Concrete inputs used by witness and counterexample theorems below. -/
def probeArgs : AskArgs := { query := "what is tcp" }

/-- Environment with no caller key and no process key. -/
def envNoKey : AskEnv := { envApiKey := "", provider := .networkError "ECONNRESET" }

/-- Environment whose provider rejects the credential with 401. -/
def env401 : AskEnv := { envApiKey := "gsk_k", provider := .httpStatus 401 }

/-- Environment whose provider answers 429. -/
def env429 : AskEnv := { envApiKey := "gsk_k", provider := .httpStatus 429 }

/-- Environment whose provider answers 500. -/
def env500 : AskEnv := { envApiKey := "gsk_k", provider := .httpStatus 500 }

/-- Scenario parameters of spec testable property for the scorer. -/
def scenarioParams : ConfidenceParams :=
  { aiConfidence := 85, hasContext := true, hasSelectedText := true, hasVisualContext := false,
    responseLength := 500, formattingScore := 100, isVerifiedSource := false }

/-- Verified-source parameters used to exhibit the missing bonus entry. -/
def bonusParams : ConfidenceParams := { aiConfidence := 85, isVerifiedSource := true }

/-- An embedding service that always answers with a one-entry vector. -/
def stubEmbedSvc : String → Option Emb := fun _ => some [1]

/-- A graph holding one Course and one Content node. -/
def smallGraph : KGraph := { courses := ["c1"], contents := ["r1"] }

/-- Save parameters at confidence 84. -/
def save84 : SaveParams := { query := "q", answer := "a", confidence := 84, courseId := "c1" }

/-- Save parameters at confidence 90 over the small graph. -/
def save90 : SaveParams :=
  { query := "abcdefg", answer := "an answer", confidence := 90, courseId := "c1",
    contentId := some "r1" }

/-- A Doubt store holding one low-confidence entry under an exact key. -/
def lowConfStore : List Doubt :=
  [{ queryKey := "what is tcp", query := "what is tcp", answer := "old answer",
     confidence := 70, relatedContent := ["r1"] }]

/-- C4: for every input combination, including out-of-range model
confidence such as 150 or -10, the final score of `calculateConfidence` is
an integer (the result type is ℤ) in [0, 100], and the model-confidence
input is clamped to [0, 100] before the weight is applied: replacing an
input of 150 by 100, or of -10 by 0, changes nothing in the result. -/
theorem calculateConfidence_range_and_clamp (p : ConfidenceParams) :
    0 ≤ (calculateConfidence p).finalScore ∧ (calculateConfidence p).finalScore ≤ 100 ∧
    aiScoreOf p = clamp0100 p.aiConfidence * aiWeightOf p ∧
    calculateConfidence { p with aiConfidence := 150 } =
      calculateConfidence { p with aiConfidence := 100 } ∧
    calculateConfidence { p with aiConfidence := -10 } =
      calculateConfidence { p with aiConfidence := 0 } := by
  have hctx : ∀ v : ℚ, contextScoreOf { p with aiConfidence := v } = contextScoreOf p :=
    fun _ => rfl
  have hresp : ∀ v : ℚ, responseScoreOf { p with aiConfidence := v } = responseScoreOf p :=
    fun _ => rfl
  have hfmt : ∀ v : ℚ, formattingScoreOf { p with aiConfidence := v } = formattingScoreOf p :=
    fun _ => rfl
  have hbon : ∀ v : ℚ, sourceBonusOf { p with aiConfidence := v } = sourceBonusOf p :=
    fun _ => rfl
  have hwt : ∀ v : ℚ, aiWeightOf { p with aiConfidence := v } = aiWeightOf p :=
    fun _ => rfl
  have hlab : ∀ v : ℚ, aiWeightLabelOf { p with aiConfidence := v } = aiWeightLabelOf p :=
    fun _ => rfl
  have hsc : ∀ v w : ℚ, clamp0100 v = clamp0100 w →
      calculateConfidence { p with aiConfidence := v } =
        calculateConfidence { p with aiConfidence := w } := by
    intro v w hvw
    have hai : aiScoreOf { p with aiConfidence := v } = aiScoreOf { p with aiConfidence := w } := by
      unfold aiScoreOf
      rw [show clamp0100 ({ p with aiConfidence := v } : ConfidenceParams).aiConfidence
            = clamp0100 ({ p with aiConfidence := w } : ConfidenceParams).aiConfidence from hvw]
      rw [hwt v, hwt w]
    unfold calculateConfidence rawFinalOf
    rw [hai, hctx v, hctx w, hresp v, hresp w, hfmt v, hfmt w, hbon v, hbon w, hwt v, hwt w,
      hlab v, hlab w]
  refine ⟨?_, ?_, rfl, ?_, ?_⟩
  · unfold calculateConfidence
    dsimp only
    omega
  · unfold calculateConfidence
    dsimp only
    omega
  · exact hsc 150 100 (by unfold clamp0100; norm_num)
  · exact hsc (-10) 0 (by unfold clamp0100; norm_num)

/-- C5: with model confidence 85, verified-source false, selected text and
general context present, no visual context, response length 500 and
formatting score 100, the components are 29.75 / 20 / 20 / 20 / 0, the
final score is round(89.75) = 90, and the reliability label is "High". -/
theorem calculateConfidence_scenario_components :
    aiScoreOf scenarioParams = 29.75 ∧
    contextScoreOf scenarioParams = 20 ∧
    responseScoreOf scenarioParams = 20 ∧
    formattingScoreOf scenarioParams = 20 ∧
    sourceBonusOf scenarioParams = 0 ∧
    rawFinalOf scenarioParams = 90 ∧
    (calculateConfidence scenarioParams).finalScore = 90 ∧
    (calculateConfidence scenarioParams).breakdown.summary.reliability = "High" := by
  have h1 : aiScoreOf scenarioParams = 29.75 := by
    norm_num [aiScoreOf, aiWeightOf, clamp0100, scenarioParams]
  have h2 : contextScoreOf scenarioParams = 20 := by
    norm_num [contextScoreOf, scenarioParams]
  have h3 : responseScoreOf scenarioParams = 20 := by
    norm_num [responseScoreOf, scenarioParams]
  have h4 : formattingScoreOf scenarioParams = 20 := by
    norm_num [formattingScoreOf, scenarioParams]
  have h5 : sourceBonusOf scenarioParams = 0 := by
    norm_num [sourceBonusOf, scenarioParams]
  have h6 : rawFinalOf scenarioParams = 90 := by
    rw [rawFinalOf, h1, h2, h3, h4, h5]
    norm_num [jsRound]
  refine ⟨h1, h2, h3, h4, h5, h6, ?_, ?_⟩
  · unfold calculateConfidence
    rw [h6]
    dsimp only
    omega
  · unfold calculateConfidence
    dsimp only
    rw [h6]
    norm_num [reliabilityOf]

/-- C8 counterexample: at model confidence 85 with a verified source, the
raw AI contribution is 42.5 but the breakdown reports the rounded 43, and
the four reported contributions sum to 48 while the reported total is 58:
the verified-source bonus of 10 is itemized nowhere in the breakdown (the
`Breakdown` record, mirroring the source object, has no bonus entry), so
the breakdown does not report the raw contribution and weight of each of
the five scoring components. -/
theorem calculateConfidence_breakdown_bonus_missing_cex :
    (calculateConfidence bonusParams).breakdown.aiConfidence.contribution = 43 ∧
    aiScoreOf bonusParams = 85/2 ∧
    ((43 : ℤ) : ℚ) ≠ 85/2 ∧
    (calculateConfidence bonusParams).breakdown.aiConfidence.contribution +
      (calculateConfidence bonusParams).breakdown.contextQuality.contribution +
      (calculateConfidence bonusParams).breakdown.responseQuality.contribution +
      (calculateConfidence bonusParams).breakdown.formattingQuality.contribution = 48 ∧
    (calculateConfidence bonusParams).breakdown.summary.totalScore = 58 ∧
    sourceBonusOf bonusParams = 10 := by
  have hai : aiScoreOf bonusParams = 85/2 := by
    norm_num [aiScoreOf, aiWeightOf, clamp0100, bonusParams]
  have hctx : contextScoreOf bonusParams = 0 := by
    norm_num [contextScoreOf, bonusParams]
  have hresp : responseScoreOf bonusParams = 5 := by
    norm_num [responseScoreOf, bonusParams]
  have hfmt : formattingScoreOf bonusParams = 0 := by
    norm_num [formattingScoreOf, bonusParams]
  have hbon : sourceBonusOf bonusParams = 10 := by
    norm_num [sourceBonusOf, bonusParams]
  have hraw : rawFinalOf bonusParams = 58 := by
    rw [rawFinalOf, hai, hctx, hresp, hfmt, hbon]
    norm_num [jsRound]
  refine ⟨?_, hai, by norm_num, ?_, ?_, hbon⟩
  · unfold calculateConfidence
    dsimp only
    rw [hai]
    norm_num [jsRound]
  · unfold calculateConfidence
    dsimp only
    rw [hai, hctx, hresp, hfmt]
    norm_num [jsRound]
  · unfold calculateConfidence
    dsimp only
    rw [hraw]
    omega

/-- C8 amended: for every input, the breakdown reports a rounded (not raw)
contribution and a weight label for four of the five components (AI,
context, response, formatting); the verified-source bonus enters only the
total and has no entry of its own. -/
theorem calculateConfidence_breakdown_reports_four (p : ConfidenceParams) :
    (calculateConfidence p).breakdown.aiConfidence.contribution = jsRound (aiScoreOf p) ∧
    (calculateConfidence p).breakdown.aiConfidence.weight = aiWeightLabelOf p ∧
    (calculateConfidence p).breakdown.contextQuality =
      { weight := "25%", contribution := jsRound (contextScoreOf p) } ∧
    (calculateConfidence p).breakdown.responseQuality =
      { weight := "20%", contribution := jsRound (responseScoreOf p) } ∧
    (calculateConfidence p).breakdown.formattingQuality =
      { weight := "20%", contribution := jsRound (formattingScoreOf p) } ∧
    (calculateConfidence p).breakdown.summary.totalScore =
      min 100 (max 0 (jsRound (aiScoreOf p + contextScoreOf p + responseScoreOf p +
        formattingScoreOf p + sourceBonusOf p))) :=
  ⟨rfl, rfl, rfl, rfl, rfl, rfl⟩

/-- C6 counterexample: for a missing (null) and for an empty input text the
analyzer returns score 0, but the details object is empty: the
`hasMainTitle` flag (like every other flag) is absent rather than present
and set to false. -/
theorem checkFormattingQuality_flags_absent_cex :
    (checkFormattingQuality none).score = 0 ∧
    (checkFormattingQuality (some "")).score = 0 ∧
    (checkFormattingQuality none).details.hasMainTitle = none ∧
    (checkFormattingQuality (some "")).details.hasMainTitle = none ∧
    (none : Option Bool) ≠ some false :=
  ⟨rfl, rfl, rfl, rfl, by decide⟩

/-- C6 amended: missing or empty text yields score 0 with an empty details
object in which every flag field is absent. -/
theorem checkFormattingQuality_empty_input :
    checkFormattingQuality none = { score := 0, details := {} } ∧
    checkFormattingQuality (some "") = { score := 0, details := {} } ∧
    ({} : FormattingDetails) =
      { hasMainTitle := none, hasSubtitles := none, hasBulletPoints := none,
        hasNumberedLists := none, hasBoldText := none, hasCodeBlocks := none,
        hasInlineCode := none, hasFormulas := none, titleCount := none,
        subtitleCount := none } :=
  ⟨rfl, rfl, rfl⟩

/-- C9: `searchKnowledgeGraph` gives the same result for any two courseId
arguments (including null) whenever the embedding service, the vector
index and the store behave the same: the courseId is bound into the query
parameters but the Cypher text never uses it, so semantic matches are
never course-scoped. -/
theorem searchKnowledgeGraph_ignores_courseId (embedSvc : String → Option Emb)
    (vectorIndex : Emb → List IndexRow) (storeFails : Bool) (query : String)
    (courseId1 courseId2 : Option String) :
    searchKnowledgeGraph embedSvc vectorIndex storeFails query courseId1 =
      searchKnowledgeGraph embedSvc vectorIndex storeFails query courseId2 := rfl

/-- C3: when every stored Doubt carrying the normalized lookup key has
confidence below 80, both the content-scoped and the global query return
nothing and `searchExistingDoubts` returns null, even though the key
matches exactly. -/
theorem searchExistingDoubts_below80_null (storeFails : Bool) (store : List Doubt)
    (query context : String) (contentId : Option String) (c : String)
    (h : ∀ d ∈ store, d.queryKey = searchKeyOf query context → d.confidence < 80) :
    contentScopedLookup store c (searchKeyOf query context) = none ∧
    globalLookup store (searchKeyOf query context) = none ∧
    searchExistingDoubts storeFails store query context contentId = none := by
  have hcAll : ∀ c', contentScopedLookup store c' (searchKeyOf query context) = none := by
    intro c'
    rw [contentScopedLookup, List.find?_eq_none]
    intro d hd
    by_cases hk : d.queryKey = searchKeyOf query context
    · have hlow := h d hd hk
      simp [hk]
      intro
      omega
    · simp [hk]
  have hg : globalLookup store (searchKeyOf query context) = none := by
    rw [globalLookup, List.find?_eq_none]
    intro d hd
    by_cases hk : d.queryKey = searchKeyOf query context
    · have hlow := h d hd hk
      simp [hk]
      omega
    · simp [hk]
  refine ⟨hcAll c, hg, ?_⟩
  cases storeFails with
  | true => rfl
  | false =>
      cases contentId with
      | none => simp [searchExistingDoubts, hg]
      | some cid =>
          by_cases hcid : cid = ""
          · simp [searchExistingDoubts, hcid, hg]
          · simp [searchExistingDoubts, hcid, hg, hcAll cid]

/-- C3 witness: a store holding one Doubt with confidence 70 under the
exact key of the probe query is not returned by any of the lookups. -/
theorem searchExistingDoubts_below80_null_witness :
    (∀ d ∈ lowConfStore, d.queryKey = searchKeyOf "What is TCP " "" → d.confidence < 80) ∧
    contentScopedLookup lowConfStore "r1" (searchKeyOf "What is TCP " "") = none ∧
    globalLookup lowConfStore (searchKeyOf "What is TCP " "") = none ∧
    searchExistingDoubts false lowConfStore "What is TCP " "" (some "r1") = none := by
  have hk : searchKeyOf "What is TCP " "" = "what is tcp" := by decide
  have hhyp : ∀ d ∈ lowConfStore, d.queryKey = searchKeyOf "What is TCP " "" →
      d.confidence < 80 := by
    rw [hk]
    decide
  have := searchExistingDoubts_below80_null false lowConfStore "What is TCP " ""
    (some "r1") "r1" hhyp
  exact ⟨hhyp, this.1, this.2.1, this.2.2⟩

/-- C10: the lookup key of `searchExistingDoubts` and the upsert key of
`saveDoubtToGraph` are computed identically (lowercased trimmed query,
plus a pipe and the lowercased trimmed context exactly when the context is
truthy), so a Doubt written for a (query, context) pair is retrieved under
the same pair by the global lookup, provided its confidence clears the
retrieval threshold. -/
theorem doubtKey_agreement_roundtrip (contents : List String) (store : List Doubt)
    (query answer context : String) (confidence : ℤ) (h80 : 80 ≤ confidence) :
    searchKeyOf query context = saveQueryKeyOf query context ∧
    searchKeyOf query context =
      jsTrim (jsToLowerCase query) ++
        (if context = "" then "" else "|" ++ jsTrim (jsToLowerCase context)) ∧
    ∃ hit, searchExistingDoubts false
        (saveDoubtToGraph false contents store query answer confidence context none)
        query context none = some hit ∧
      hit.answer = answer ∧ hit.confidence = confidence ∧ hit.source = "graph_db" := by
  refine ⟨rfl, rfl, ?_⟩
  obtain ⟨d, hfind, ha, hc⟩ := globalLookup_upsertDoubt store (saveQueryKeyOf query context)
    (jsTrim query) (jsTrim context) answer confidence none h80
  refine ⟨{ answer := d.answer, confidence := d.confidence, source := "graph_db" }, ?_, ha, hc, rfl⟩
  rw [searchExistingDoubts, saveDoubtToGraph]
  simp only [if_neg (by simp : ¬ (false = true)), Option.none_bind]
  rw [show searchKeyOf query context = saveQueryKeyOf query context from rfl]
  rw [hfind]
  rfl

/-- C10 witness: saving a Doubt at confidence 92 for ("Explain DNS",
"Networking") into an empty store makes it retrievable under the same
pair. -/
theorem doubtKey_agreement_roundtrip_witness :
    (80 : ℤ) ≤ 92 ∧
    searchKeyOf "Explain DNS" "Networking" = saveQueryKeyOf "Explain DNS" "Networking" ∧
    searchExistingDoubts false
        (saveDoubtToGraph false [] [] "Explain DNS" "the answer" 92 "Networking" none)
        "Explain DNS" "Networking" none =
      some { answer := "the answer", confidence := 92, source := "graph_db" } := by
  have h := doubtKey_agreement_roundtrip [] [] "Explain DNS" "the answer" "Networking" 92
    (by decide)
  obtain ⟨hkey, -, hit, hfind, ha, hc, hs⟩ := h
  refine ⟨by decide, hkey, ?_⟩
  rw [hfind]
  cases hit
  simp_all

/-- C2 counterexample: at confidence 84 the Knowledge Writer returns the
JS value null, which is not the boolean false the claim states (it does
perform no store or embedding interaction). -/
theorem saveToKnowledgeGraph_conf84_null_cex :
    saveToKnowledgeGraph stubEmbedSvc false smallGraph 0 save84 =
      { result := JsVal.null, graph := smallGraph,
        embeddingCalled := false, storeCalled := false } ∧
    JsVal.null ≠ JsVal.bool false :=
  ⟨rfl, by decide⟩

/-- C2 amended: with confidence below 85 the Knowledge Writer returns null
(a falsy value, not the boolean false) and performs no embedding or store
interaction at all; with confidence at least 85, a successful embedding
lookup and a healthy store it executes the full merge statement and
returns true, so the resulting graph contains the Question node (with the
embedding), the Answer node, the ANSWERS edge, and - when the referenced
Course exists - the course RELATES_TO edge, then - when the referenced
Content also exists - the content edge and the capitalized Concept node of
every query word longer than five characters. -/
theorem saveToKnowledgeGraph_admission (embedSvc : String → Option Emb) (storeFails : Bool)
    (g : KGraph) (now : ℕ) (p : SaveParams) (e : Emb) :
    (p.confidence < 85 →
      saveToKnowledgeGraph embedSvc storeFails g now p =
        { result := JsVal.null, graph := g, embeddingCalled := false, storeCalled := false }) ∧
    (85 ≤ p.confidence → embedSvc p.query = some e → storeFails = false →
      (saveToKnowledgeGraph embedSvc storeFails g now p).result = JsVal.bool true ∧
      (saveToKnowledgeGraph embedSvc storeFails g now p).graph =
        mergeSubgraph g p.query p.answer p.confidence e p.courseId (jsOrEmpty p.contentId) now ∧
      (∃ qn ∈ (saveToKnowledgeGraph embedSvc storeFails g now p).graph.questions,
        qn.text = p.query ∧ qn.embedding = e) ∧
      (∃ an ∈ (saveToKnowledgeGraph embedSvc storeFails g now p).graph.answers,
        an.text = p.answer ∧ an.confidence = p.confidence ∧ an.source = "AI_GENERATED") ∧
      (p.query, p.answer) ∈ (saveToKnowledgeGraph embedSvc storeFails g now p).graph.answersEdges ∧
      (p.courseId ∈ g.courses →
        (p.query, p.courseId) ∈
          (saveToKnowledgeGraph embedSvc storeFails g now p).graph.questionCourseEdges ∧
        (jsOrEmpty p.contentId ∈ g.contents →
          (p.query, jsOrEmpty p.contentId) ∈
            (saveToKnowledgeGraph embedSvc storeFails g now p).graph.resourceEdges ∧
          ∀ w ∈ jsSplitOnSpace p.query, 5 < w.length →
            capitalizeWord w ∈ (saveToKnowledgeGraph embedSvc storeFails g now p).graph.concepts))) := by
  constructor
  · intro h
    rw [saveToKnowledgeGraph, if_pos h]
  · intro h85 hemb hsf
    subst hsf
    have hsave : saveToKnowledgeGraph embedSvc false g now p =
        { result := JsVal.bool true,
          graph := mergeSubgraph g p.query p.answer p.confidence e p.courseId
            (jsOrEmpty p.contentId) now,
          embeddingCalled := true, storeCalled := true } := by
      rw [saveToKnowledgeGraph, if_neg (by omega), hemb]
      rfl
    rw [hsave]
    refine ⟨rfl, rfl, ?_, ?_, ?_, ?_⟩
    · rw [mergeSubgraph_questions_eq]
      obtain ⟨qn, hmem, ht, he, -⟩ := mergeQuestion_mem g p.query e now
      exact ⟨qn, hmem, ht, he⟩
    · rw [mergeSubgraph_answers_eq]
      exact mergeAnswer_mem (mergeQuestion g p.query e now) p.answer p.confidence now
    · rw [mergeSubgraph_answersEdges_eq]
      exact mem_insertPair_self _ _
    · intro hcourse
      refine ⟨?_, ?_⟩
      · rw [mergeSubgraph_courseEdges_eq _ _ _ _ _ _ _ _ hcourse]
        exact mem_insertPair_self _ _
      · intro hcontent
        refine ⟨?_, ?_⟩
        · rw [mergeSubgraph_resourceEdges_eq _ _ _ _ _ _ _ _ hcourse hcontent]
          exact mem_insertPair_self _ _
        · intro w hw hlen
          exact mergeSubgraph_concepts_mem g p.query p.answer p.confidence e p.courseId
            (jsOrEmpty p.contentId) now hcourse hcontent w hw hlen

/-- C2 witness: a confidence-90 save over a graph holding Course "c1" and
Content "r1" returns true and merges the whole subgraph, including the
Concept derived from the seven-character query word. -/
theorem saveToKnowledgeGraph_admission_witness :
    (85 : ℤ) ≤ 90 ∧
    (saveToKnowledgeGraph stubEmbedSvc false smallGraph 0 save90).result = JsVal.bool true ∧
    ("abcdefg", "an answer") ∈
      (saveToKnowledgeGraph stubEmbedSvc false smallGraph 0 save90).graph.answersEdges ∧
    ("abcdefg", "c1") ∈
      (saveToKnowledgeGraph stubEmbedSvc false smallGraph 0 save90).graph.questionCourseEdges ∧
    ("abcdefg", "r1") ∈
      (saveToKnowledgeGraph stubEmbedSvc false smallGraph 0 save90).graph.resourceEdges ∧
    capitalizeWord "abcdefg" ∈
      (saveToKnowledgeGraph stubEmbedSvc false smallGraph 0 save90).graph.concepts := by
  have h := (saveToKnowledgeGraph_admission stubEmbedSvc false smallGraph 0 save90 [1]).2
    (by decide) rfl rfl
  obtain ⟨hres, -, -, -, hedge, hrest⟩ := h
  have hcourse : ("c1" : String) ∈ smallGraph.courses := by decide
  have hcontent : jsOrEmpty save90.contentId ∈ smallGraph.contents := by decide
  obtain ⟨hce, hrest2⟩ := hrest hcourse
  obtain ⟨hre, hconc⟩ := hrest2 hcontent
  refine ⟨by decide, hres, hedge, hce, hre, ?_⟩
  exact hconc "abcdefg" (by decide) (by decide)

/-- C1 counterexample: a missing credential, a provider 401, a provider
429 and a generic provider 500 all surface to the caller as the one
identical generic error value - the outer catch of `askGroq` rewrites
every failure, so none of the three special conditions is recognisable as
its own error kind by the caller. -/
theorem askGroq_failures_indistinguishable_cex :
    askGroq envNoKey probeArgs = Except.error "AI Tutor is currently unavailable." ∧
    askGroq env401 probeArgs = Except.error "AI Tutor is currently unavailable." ∧
    askGroq env429 probeArgs = Except.error "AI Tutor is currently unavailable." ∧
    askGroq env500 probeArgs = Except.error "AI Tutor is currently unavailable." ∧
    askGroq envNoKey probeArgs = askGroq env500 probeArgs ∧
    askGroq env401 probeArgs = askGroq env500 probeArgs :=
  ⟨rfl, rfl, rfl, rfl, rfl, rfl⟩

/-- C1 amended: `askGroq` detects the three conditions and throws distinct
internal errors (NO_API_KEY for a missing credential, INVALID_API_KEY for
a provider 401, API_LIMIT_REACHED for a provider 413/429), but its outer
catch block replaces every failure, these included, with the single
generic "AI Tutor is currently unavailable." error, so the caller cannot
distinguish the failure kinds. -/
theorem askGroq_masks_all_failures (env : AskEnv) (a : AskArgs) :
    (activeApiKeyOf a.userKey env.envApiKey = "" →
      innerAskGroq env a = Except.error AskFailure.noApiKey) ∧
    (activeApiKeyOf a.userKey env.envApiKey ≠ "" → env.provider = ProviderOutcome.httpStatus 401 →
      innerAskGroq env a = Except.error AskFailure.invalidApiKey) ∧
    (activeApiKeyOf a.userKey env.envApiKey ≠ "" →
      (env.provider = ProviderOutcome.httpStatus 413 ∨
        env.provider = ProviderOutcome.httpStatus 429) →
      innerAskGroq env a = Except.error AskFailure.apiLimitReached) ∧
    (∀ f, innerAskGroq env a = Except.error f →
      askGroq env a = Except.error tutorUnavailableMessage) ∧
    (∀ msg, askGroq env a = Except.error msg → msg = tutorUnavailableMessage) := by
  refine ⟨?_, ?_, ?_, ?_, ?_⟩
  · intro h
    rw [innerAskGroq, if_pos h]
  · intro h hp
    rw [innerAskGroq, if_neg h, hp]
    rfl
  · intro h hp
    rcases hp with hp | hp <;> rw [innerAskGroq, if_neg h, hp] <;> rfl
  · intro f hf
    rw [askGroq, hf]
  · intro msg hmsg
    rw [askGroq] at hmsg
    split at hmsg
    · exact absurd hmsg (by simp)
    · exact (Except.error.inj hmsg).symm

/-- C1 witness: the three inner distinctions and the outer masking,
exercised on concrete environments. -/
theorem askGroq_masks_all_failures_witness :
    innerAskGroq envNoKey probeArgs = Except.error AskFailure.noApiKey ∧
    innerAskGroq env401 probeArgs = Except.error AskFailure.invalidApiKey ∧
    innerAskGroq env429 probeArgs = Except.error AskFailure.apiLimitReached ∧
    askGroq env401 probeArgs = Except.error tutorUnavailableMessage :=
  ⟨(askGroq_masks_all_failures envNoKey probeArgs).1 rfl,
   (askGroq_masks_all_failures env401 probeArgs).2.1 (by decide) rfl,
   (askGroq_masks_all_failures env429 probeArgs).2.2.1 (by decide) (Or.inr rfl),
   (askGroq_masks_all_failures env401 probeArgs).2.2.2.1 AskFailure.invalidApiKey
     ((askGroq_masks_all_failures env401 probeArgs).2.1 (by decide) rfl)⟩

/-- C7: the region-grounded prompt mode is selected exactly when the
context string starts with the strict-region sentinel, and when the text
after the sentinel is malformed JSON (the parse yields nothing) the mode
is constructed with the default grounding object, whose transcript
segment, timestamp and course context are all empty - the catch block
swallows the parse failure, so selection never raises. -/
theorem selectPromptMode_region_iff_sentinel (jsonParse : String → Option Grounding)
    (context : String) :
    ((∃ gc, selectPromptMode jsonParse context = PromptMode.regionGrounded gc) ↔
      jsStartsWith context strictRegionSentinel = true) ∧
    (jsStartsWith context strictRegionSentinel = true →
      jsonParse (jsReplaceFirst context "STRICT_REGION_CONTEXT: ") = none →
      selectPromptMode jsonParse context = PromptMode.regionGrounded
        { transcriptSegment := "", selectedTimestamp := "", courseContext := "",
          facultyResources := "" }) := by
  constructor
  · constructor
    · rintro ⟨gc, hgc⟩
      by_contra hns
      rw [selectPromptMode, if_neg hns] at hgc
      exact PromptMode.noConfusion hgc
    · intro hs
      rw [selectPromptMode, if_pos hs]
      show (∃ gc, (match jsonParse (jsReplaceFirst context "STRICT_REGION_CONTEXT: ") with
        | some gc => PromptMode.regionGrounded gc
        | none => PromptMode.regionGrounded {}) = PromptMode.regionGrounded gc)
      cases hp : jsonParse (jsReplaceFirst context "STRICT_REGION_CONTEXT: ") with
      | some gc => exact ⟨gc, rfl⟩
      | none => exact ⟨{}, rfl⟩
  · intro hs hp
    rw [selectPromptMode, if_pos hs]
    show (match jsonParse (jsReplaceFirst context "STRICT_REGION_CONTEXT: ") with
      | some gc => PromptMode.regionGrounded gc
      | none => PromptMode.regionGrounded {}) = _
    rw [hp]

/-- C7 witness: a sentinel-prefixed context whose remainder is not valid
JSON selects the region-grounded mode with empty grounding fields. -/
theorem selectPromptMode_region_iff_sentinel_witness :
    jsStartsWith "STRICT_REGION_CONTEXT: oops" strictRegionSentinel = true ∧
    selectPromptMode (fun _ => none) "STRICT_REGION_CONTEXT: oops" =
      PromptMode.regionGrounded
        { transcriptSegment := "", selectedTimestamp := "", courseContext := "",
          facultyResources := "" } :=
  ⟨by decide,
   (selectPromptMode_region_iff_sentinel (fun _ => none) "STRICT_REGION_CONTEXT: oops").2
     (by decide) rfl⟩
